import Mathlib

/-!
Verification of the authentication / connection-registry core of the
ddd_architecture repository: a shallow embedding of
src/app/modules/auth/security.py, src/app/initialize/websocket.py,
src/app/middlewares/auth_middleware.py, src/app/modules/user/dependencies.py,
src/app/core/setting.py and src/app/utils/response.py, with theorems about the
embedded operations.

Timestamps are integers (UNIX seconds).  Nondeterministic inputs of the Python
code (current time, fresh uuid4 jti values) are explicit arguments.
-/

deriving instance DecidableEq for Except

/-- Decoded JWT payload as built by TokenService.generate_access_token and
TokenService.generate_refresh_token (src/app/modules/auth/security.py lines
41-49 and 66-71).  A refresh payload carries none for username, email, role. -/
structure JwtPayload where
  sub : String
  username : Option String
  email : Option String
  role : Option String
  iat : Int
  jti : String
  exp : Int
  deriving DecidableEq, Repr

/-- A token string: either a well-formed compact JWT, carrying its payload and
the secret and algorithm it was signed with, or a structurally malformed
string. -/
inductive TokenStr where
  | signed (payload : JwtPayload) (secret : String) (alg : String)
  | malformed (raw : String)
  deriving DecidableEq, Repr

/-- The PyJWT exceptions jwt.decode can raise here.  In PyJWT every one of
them, ExpiredSignatureError included, is a subclass of InvalidTokenError. -/
inductive JwtError where
  | expiredSignature
  | invalidSignature
  | decodeError
  deriving DecidableEq, Repr

/-- The PyJWT class hierarchy: is this exception an InvalidTokenError?  All
three modelled exceptions subclass InvalidTokenError. -/
def JwtError.isInvalidTokenError : JwtError → Bool
  | .expiredSignature => true
  | .invalidSignature => true
  | .decodeError => true

/-- jwt.decode(token, key, algorithms=[alg], options): non-string input (the
cookie was absent, token is None) and malformed strings raise DecodeError;
a signature made with a different secret or algorithm raises
InvalidSignatureError; with expiry verification on, a token whose exp is not
in the future raises ExpiredSignatureError; otherwise the payload is
returned. -/
def jwtDecode (tok : Option TokenStr) (key : String) (alg : String)
    (verifyExp : Bool) (now : Int) : Except JwtError JwtPayload :=
  match tok with
  | none => .error .decodeError
  | some (.malformed _) => .error .decodeError
  | some (.signed p s a) =>
    if s = key ∧ a = alg then
      if verifyExp ∧ p.exp ≤ now then .error .expiredSignature else .ok p
    else .error .invalidSignature

/-- TokenService (src/app/modules/auth/security.py lines 15-26). -/
structure TokenService where
  secret_key : String
  algorithm : String
  access_token_expires_in_minutes : Int
  refresh_token_expires_in_days : Int
  deriving DecidableEq, Repr

/-- Modelled from the spec: the User record behind the repository contract
(src/app/modules/user/model.py is not under src/).  It carries the identity
fields the token payloads and the middleware use. -/
structure User where
  id : String
  username : String
  email : String
  role : String
  is_active : Bool
  deriving DecidableEq, Repr

/-- TokenService.generate_access_token (security.py lines 28-51): payload with
sub, username, email, role, iat = now, a caller-supplied fresh jti, and
exp = now + access_token_expires_in_minutes minutes, signed with the
configured secret and algorithm. -/
def TokenService.generate_access_token (svc : TokenService) (user : User)
    (now : Int) (jti : String) : TokenStr :=
  .signed
    { sub := user.id, username := some user.username, email := some user.email,
      role := some user.role, iat := now, jti := jti,
      exp := now + 60 * svc.access_token_expires_in_minutes }
    svc.secret_key svc.algorithm

/-- TokenService.generate_refresh_token (security.py lines 53-73): payload with
only sub, iat, jti, and exp = now + refresh_token_expires_in_days days. -/
def TokenService.generate_refresh_token (svc : TokenService) (user : User)
    (now : Int) (jti : String) : TokenStr :=
  .signed
    { sub := user.id, username := none, email := none, role := none,
      iat := now, jti := jti,
      exp := now + 86400 * svc.refresh_token_expires_in_days }
    svc.secret_key svc.algorithm

/-- TokenService.validate_token (security.py lines 75-96): jwt.decode with
verify_exp on; an ExpiredSignatureError is caught and becomes None, any other
InvalidTokenError is caught by the second except clause and becomes None; an
exception outside those classes would propagate (the error branch). -/
def TokenService.validate_token (svc : TokenService) (token : Option TokenStr)
    (now : Int) : Except JwtError (Option JwtPayload) :=
  match jwtDecode token svc.secret_key svc.algorithm true now with
  | .ok p => .ok (some p)
  | .error e =>
    if e = .expiredSignature then .ok none
    else if e.isInvalidTokenError then .ok none
    else .error e

/-- The access and refresh token pair returned by generate_token_pair. -/
structure TokenPair where
  access_token : TokenStr
  refresh_token : TokenStr
  deriving DecidableEq, Repr

/-- TokenService.generate_token_pair (security.py lines 98-110). -/
def TokenService.generate_token_pair (svc : TokenService) (user : User)
    (now : Int) (jtiA jtiR : String) : TokenPair :=
  { access_token := svc.generate_access_token user now jtiA,
    refresh_token := svc.generate_refresh_token user now jtiR }

/-- TokenService.get_token_payload (security.py lines 112-129): despite its
docstring, the body calls jwt.decode(token, self.secret_key,
algorithms=[self.algorithm]) with no options, so PyJWT defaults apply and both
the signature and exp are verified; every exception is caught and None is
returned. -/
def TokenService.get_token_payload (svc : TokenService) (token : Option TokenStr)
    (now : Int) : Option JwtPayload :=
  match jwtDecode token svc.secret_key svc.algorithm true now with
  | .ok p => some p
  | .error _ => none

/-! Python call semantics: positional and keyword argument binding. -/

/-- Modelled from the spec: the AppStatus taxonomy used by the modelled call
sites (src/app/core/app_status.py is not under src/); each status carries the
HTTP class the spec's error taxonomy assigns to it. -/
inductive AppStatusT where
  | unauthorized
  | forbidden
  | success
  deriving DecidableEq, Repr

/-- The HTTP status code of an AppStatus value. -/
def AppStatusT.status_code : AppStatusT → Nat
  | .unauthorized => 401
  | .forbidden => 403
  | .success => 200

/-- The HTTPException value error_exception_handler builds
(src/app/utils/response.py lines 20-27). -/
structure HTTPExceptionV where
  status_code : Nat
  tag : AppStatusT
  deriving DecidableEq, Repr

/-- Python exceptions the embedded code can raise. -/
inductive PyExc where
  | typeError
  | attributeError
  | valueError
  | repoFailure
  | httpException (h : HTTPExceptionV)
  | jwtExc (e : JwtError)
  deriving DecidableEq, Repr

/-- Python argument binding for a call f(*args, **kwargs) against a parameter
list whose last numDefaults parameters have defaults: TypeError for more
positional arguments than parameters, for a keyword that is no parameter or
names a positionally filled parameter, or for a required parameter left
unfilled. -/
def bindArgs (params : List String) (numDefaults : Nat) (nPos : Nat)
    (kwargs : List String) : Except PyExc Unit :=
  if params.length < nPos then .error .typeError
  else if kwargs.any (fun k =>
      decide (k ∉ params) || decide (k ∈ params.take nPos)) then .error .typeError
  else if (params.take (params.length - numDefaults)).any (fun p =>
      decide (p ∉ params.take nPos) && decide (p ∉ kwargs)) then .error .typeError
  else .ok ()

/-- Parameter list of error_exception_handler (response.py line 20):
(app_status, data=None), so one trailing default. -/
def error_exception_handler_params : List String := ["app_status", "data"]

/-- error_exception_handler (response.py lines 20-27): returns an
HTTPException with the status code and meta of the given AppStatus. -/
def error_exception_handler (app_status : AppStatusT) : HTTPExceptionV :=
  { status_code := app_status.status_code, tag := app_status }

/-- The call error_exception_handler(status, headers=response.headers) as
written at src/app/middlewares/auth_middleware.py lines 35, 42, 46 and 49: one
positional argument plus the keyword headers, bound against the parameter list
of error_exception_handler. -/
def call_eeh_with_headers (app_status : AppStatusT) :
    Except PyExc HTTPExceptionV :=
  match bindArgs error_exception_handler_params 1 1 ["headers"] with
  | .ok _ => .ok (error_exception_handler app_status)
  | .error e => .error e

/-- The exception that actually propagates from the statement
raise error_exception_handler(AppStatus.UNAUTHORIZED, headers=response.headers):
if the call binds, the built HTTPException is raised, otherwise the binding
failure itself is what escapes. -/
def raiseUnauthorizedWithHeaders : PyExc :=
  match call_eeh_with_headers .unauthorized with
  | .ok h => .httpException h
  | .error e => e

/-- Parameter list of TokenService.__init__ (security.py lines 16-26), self
excluded; no parameter has a default. -/
def tokenServiceInitParams : List String :=
  ["secret_key", "algorithm", "access_token_expires_in_minutes",
   "refresh_token_expires_in_days"]

/-- get_token_service (src/app/modules/user/dependencies.py lines 15-16):
returns TokenService(), a call with zero arguments bound against __init__'s
four required parameters.  The pure branch is unreachable: with no arguments
bound, no field values exist, so the placeholder record is never observable. -/
def get_token_service : Except PyExc TokenService := do
  let _ ← bindArgs tokenServiceInitParams 0 0 []
  pure { secret_key := "", algorithm := "",
         access_token_expires_in_minutes := 0,
         refresh_token_expires_in_days := 0 }

/-! Theorems for claims C1, C2, C8, C10. -/

/-- Decoding a token against the very secret and algorithm it was signed with
reduces to the expiry check. -/
theorem jwtDecode_signed_self (p : JwtPayload) (key alg : String) (now : Int) :
    jwtDecode (some (.signed p key alg)) key alg true now =
      if p.exp ≤ now then .error .expiredSignature else .ok p := by
  simp [jwtDecode]

/-- C1: for every claim set with expires_at greater than issued_at, still
unexpired at the moment of checking, decoding-and-verifying the encoded token
with the configured secret and algorithm returns exactly the claim set that
was encoded. -/
theorem TokenService.access_token_roundtrip (svc : TokenService) (u : User)
    (tIss tChk : Int) (jti : String)
    (hIat : tIss < tIss + 60 * svc.access_token_expires_in_minutes)
    (hFresh : tChk < tIss + 60 * svc.access_token_expires_in_minutes) :
    svc.validate_token (some (svc.generate_access_token u tIss jti)) tChk =
      .ok (some
        { sub := u.id, username := some u.username, email := some u.email,
          role := some u.role, iat := tIss, jti := jti,
          exp := tIss + 60 * svc.access_token_expires_in_minutes }) := by
  have hd : jwtDecode (some (svc.generate_access_token u tIss jti))
      svc.secret_key svc.algorithm true tChk =
      .ok { sub := u.id, username := some u.username, email := some u.email,
            role := some u.role, iat := tIss, jti := jti,
            exp := tIss + 60 * svc.access_token_expires_in_minutes } := by
    unfold TokenService.generate_access_token
    rw [jwtDecode_signed_self,
      if_neg (show ¬ tIss + 60 * svc.access_token_expires_in_minutes ≤ tChk by omega)]
  unfold TokenService.validate_token
  rw [hd]

/-- C1 witness: a concrete round trip. -/
theorem TokenService.access_token_roundtrip_witness :
    TokenService.validate_token
      { secret_key := "k", algorithm := "HS256",
        access_token_expires_in_minutes := 1, refresh_token_expires_in_days := 7 }
      (some (TokenService.generate_access_token
        { secret_key := "k", algorithm := "HS256",
          access_token_expires_in_minutes := 1, refresh_token_expires_in_days := 7 }
        { id := "u-42", username := "alice", email := "a@x", role := "user",
          is_active := true } 1000 "jti-1")) 1030 =
      .ok (some
        { sub := "u-42", username := some "alice", email := some "a@x",
          role := some "user", iat := 1000, jti := "jti-1", exp := 1060 }) :=
  TokenService.access_token_roundtrip
    { secret_key := "k", algorithm := "HS256",
      access_token_expires_in_minutes := 1, refresh_token_expires_in_days := 7 }
    { id := "u-42", username := "alice", email := "a@x", role := "user",
      is_active := true } 1000 1030 "jti-1" (by norm_num) (by norm_num)

/-- C2: validate_token never lets an exception escape: its result is always a
returned value, the decoded payload when jwt.decode succeeds, and None
whenever jwt.decode raises, expired and forged signatures included. -/
theorem TokenService.validate_token_never_raises (svc : TokenService)
    (tok : Option TokenStr) (now : Int) :
    (∃ r, svc.validate_token tok now = .ok r)
    ∧ (∀ p, jwtDecode tok svc.secret_key svc.algorithm true now = .ok p →
        svc.validate_token tok now = .ok (some p))
    ∧ (∀ e, jwtDecode tok svc.secret_key svc.algorithm true now = .error e →
        svc.validate_token tok now = .ok none) := by
  refine ⟨?_, ?_, ?_⟩
  · unfold TokenService.validate_token
    cases h : jwtDecode tok svc.secret_key svc.algorithm true now with
    | ok p => exact ⟨some p, rfl⟩
    | error e => cases e <;> exact ⟨none, rfl⟩
  · intro p hp
    unfold TokenService.validate_token
    rw [hp]
  · intro e he
    unfold TokenService.validate_token
    rw [he]
    cases e <;> rfl

/-- C2 witness: a token signed with a different secret (a forged signature)
is absorbed into None. -/
theorem TokenService.validate_token_never_raises_witness :
    TokenService.validate_token
      { secret_key := "k", algorithm := "HS256",
        access_token_expires_in_minutes := 1, refresh_token_expires_in_days := 7 }
      (some (TokenStr.signed
        { sub := "u-42", username := none, email := none, role := none,
          iat := 0, jti := "j", exp := 99999 } "other-secret" "HS256")) 100 =
      .ok none :=
  (TokenService.validate_token_never_raises
    { secret_key := "k", algorithm := "HS256",
      access_token_expires_in_minutes := 1, refresh_token_expires_in_days := 7 }
    (some (TokenStr.signed
      { sub := "u-42", username := none, email := none, role := none,
        iat := 0, jti := "j", exp := 99999 } "other-secret" "HS256")) 100).2.2
    JwtError.invalidSignature (by decide)

/-- C8: for a correctly signed token whose exp is past, validate_token returns
None, and get_token_payload also returns None, because its jwt.decode call
uses the PyJWT defaults and therefore still verifies expiry. -/
theorem TokenService.get_token_payload_expired (svc : TokenService)
    (p : JwtPayload) (now : Int) (hExpired : p.exp ≤ now) :
    svc.validate_token (some (.signed p svc.secret_key svc.algorithm)) now =
        .ok none
    ∧ svc.get_token_payload (some (.signed p svc.secret_key svc.algorithm)) now =
        none := by
  have hd : jwtDecode (some (.signed p svc.secret_key svc.algorithm))
      svc.secret_key svc.algorithm true now = .error .expiredSignature := by
    rw [jwtDecode_signed_self, if_pos hExpired]
  constructor
  · unfold TokenService.validate_token
    rw [hd]
    rfl
  · unfold TokenService.get_token_payload
    rw [hd]

/-- C8 witness: a concrete expired, correctly signed token. -/
theorem TokenService.get_token_payload_expired_witness :
    TokenService.validate_token
      { secret_key := "k", algorithm := "HS256",
        access_token_expires_in_minutes := 1, refresh_token_expires_in_days := 7 }
      (some (TokenStr.signed
        { sub := "u-42", username := none, email := none, role := none,
          iat := 0, jti := "j", exp := 50 } "k" "HS256")) 100 = .ok none
    ∧ TokenService.get_token_payload
      { secret_key := "k", algorithm := "HS256",
        access_token_expires_in_minutes := 1, refresh_token_expires_in_days := 7 }
      (some (TokenStr.signed
        { sub := "u-42", username := none, email := none, role := none,
          iat := 0, jti := "j", exp := 50 } "k" "HS256")) 100 = none :=
  TokenService.get_token_payload_expired
    { secret_key := "k", algorithm := "HS256",
      access_token_expires_in_minutes := 1, refresh_token_expires_in_days := 7 }
    { sub := "u-42", username := none, email := none, role := none,
      iat := 0, jti := "j", exp := 50 } 100 (by norm_num)

/-- C10: get_token_service calls TokenService() with zero arguments while
__init__ has four required parameters, so the dependency always raises
TypeError and never yields a TokenService. -/
theorem get_token_service_raises_type_error :
    get_token_service = .error PyExc.typeError := rfl

/-! Connection registry: ConnectionManager (src/app/initialize/websocket.py).
The mapping user_id to set-of-websockets is embedded as an association list
with one entry per user id; connection handles are natural numbers; whether a
send to a given handle raises is an explicit predicate fail. -/

/-- The ConnectionManager state: self.connections. -/
abbrev Reg := List (String × List Nat)

/-- Dict lookup self.connections[user_id] (None when the key is absent). -/
def lookupWs (uid : String) : Reg → Option (List Nat)
  | [] => none
  | (u, ws) :: rest => if u = uid then some ws else lookupWs uid rest

/-- ConnectionManager.connect (websocket.py lines 11-16): create the set when
the user id key is absent, then add the handle (set add: a no-op when the
handle is already a member). -/
def ConnectionManager.connect (w : Nat) (uid : String) : Reg → Reg
  | [] => [(uid, [w])]
  | (u, ws) :: rest =>
    if u = uid then (u, if w ∈ ws then ws else ws ++ [w]) :: rest
    else (u, ws) :: ConnectionManager.connect w uid rest

/-- ConnectionManager.disconnect (websocket.py lines 18-25): scan the items,
discard the handle from the first set containing it, delete the user id key
when its set becomes empty, then break. -/
def ConnectionManager.disconnect (w : Nat) : Reg → Reg
  | [] => []
  | (u, ws) :: rest =>
    if w ∈ ws then
      if ws.erase w = [] then rest else (u, ws.erase w) :: rest
    else (u, ws) :: ConnectionManager.disconnect w rest

/-- ConnectionManager.send_to_user (websocket.py lines 27-44): False when the
user id key is absent; otherwise every handle of the user is attempted, the
failing ones are collected and disconnected after the delivery loop, and True
is returned.  Result: (handles the message reached, new state, return value). -/
def ConnectionManager.send_to_user (fail : Nat → Bool) (uid : String)
    (s : Reg) : List Nat × Reg × Bool :=
  match lookupWs uid s with
  | none => ([], s, false)
  | some ws =>
    (ws.filter (fun w => ! fail w),
     (ws.filter fail).foldl (fun st w => ConnectionManager.disconnect w st) s,
     true)

/-- The inner loops of ConnectionManager.broadcast (websocket.py lines 46-54)
over a snapshot of the items: each failing handle is disconnected on the spot. -/
def ConnectionManager.broadcastGo (fail : Nat → Bool) :
    List (String × List Nat) → Reg → Reg
  | [], st => st
  | (_, ws) :: rest, st =>
    ConnectionManager.broadcastGo fail rest
      ((ws.filter fail).foldl (fun acc w => ConnectionManager.disconnect w acc) st)

/-- ConnectionManager.broadcast: iterate the snapshot list(self.connections.items())
threading the pruning through. -/
def ConnectionManager.broadcast (fail : Nat → Bool) (s : Reg) : Reg :=
  ConnectionManager.broadcastGo fail s s

/-- ConnectionManager.get_online_users (websocket.py lines 60-61). -/
def ConnectionManager.get_online_users (s : Reg) : List String :=
  s.map Prod.fst

/-- ConnectionManager.count_all_connections (websocket.py lines 63-64). -/
def ConnectionManager.count_all_connections (s : Reg) : Nat :=
  (s.map (fun p => p.2.length)).sum

/-- A handle is registered somewhere in the mapping. -/
def registered (w : Nat) (s : Reg) : Prop :=
  ∃ p ∈ s, w ∈ p.2

instance (w : Nat) (s : Reg) : Decidable (registered w s) := by
  unfold registered
  infer_instance

/-- Well-formedness a Python dict of sets holds by construction: user id keys
are pairwise distinct, and every set is duplicate-free and non-empty (the
registry invariant). -/
def RegWF (s : Reg) : Prop :=
  (s.map Prod.fst).Nodup ∧ ∀ p ∈ s, p.2 ≠ [] ∧ p.2.Nodup

instance (s : Reg) : Decidable (RegWF s) := by
  unfold RegWF
  infer_instance

/-- RegWF plus: no handle is registered under two different entries (the
spec's single-owner reading; needed to reason about disconnect precisely). -/
def RegWFD (s : Reg) : Prop :=
  RegWF s ∧ s.Pairwise (fun p q => ∀ w, w ∈ p.2 → w ∉ q.2)


instance (s : Reg) : Decidable (RegWFD s) := by
  unfold RegWFD
  infer_instance

/-- One registry operation; send_to_user and broadcast act on the state through
their pruning. -/
inductive RegOp where
  | conn (w : Nat) (uid : String)
  | disc (w : Nat)
  | send (uid : String)
  | bcast
  deriving DecidableEq, Repr

/-- The state after one operation. -/
def applyOp (fail : Nat → Bool) : RegOp → Reg → Reg
  | .conn w uid, s => ConnectionManager.connect w uid s
  | .disc w, s => ConnectionManager.disconnect w s
  | .send uid, s => (ConnectionManager.send_to_user fail uid s).2.1
  | .bcast, s => ConnectionManager.broadcast fail s

theorem connect_keys (w : Nat) (uid : String) (s : Reg) :
    (ConnectionManager.connect w uid s).map Prod.fst =
      if uid ∈ s.map Prod.fst then s.map Prod.fst else s.map Prod.fst ++ [uid] := by
  induction s with
  | nil => simp [ConnectionManager.connect]
  | cons p rest ih =>
    obtain ⟨u, ws⟩ := p
    by_cases h : u = uid
    · subst h
      simp [ConnectionManager.connect]
    · simp only [ConnectionManager.connect, if_neg h, List.map_cons, ih]
      by_cases hm : uid ∈ rest.map Prod.fst
      · simp [hm, Ne.symm h]
      · simp [hm, Ne.symm h]

theorem connect_WF (w : Nat) (uid : String) (s : Reg) (h : RegWF s) :
    RegWF (ConnectionManager.connect w uid s) := by
  induction s with
  | nil =>
    constructor
    · simp [ConnectionManager.connect]
    · intro p hp
      simp [ConnectionManager.connect] at hp
      subst hp
      simp
  | cons q rest ih =>
    obtain ⟨u, ws⟩ := q
    have hkr : (rest.map Prod.fst).Nodup := (List.nodup_cons.mp h.1).2
    have hur : u ∉ rest.map Prod.fst := (List.nodup_cons.mp h.1).1
    have hhead := h.2 (u, ws) (by simp)
    have hrest : RegWF rest :=
      ⟨hkr, fun q hq => h.2 q (List.mem_cons_of_mem _ hq)⟩
    by_cases hu : u = uid
    · subst hu
      simp only [ConnectionManager.connect, if_pos rfl]
      constructor
      · simpa using h.1
      · intro p hp
        rcases List.mem_cons.mp hp with hp1 | hp2
        · subst hp1
          by_cases hw : w ∈ ws
          · simpa [hw] using hhead
          · simp only [if_neg hw]
            refine ⟨by simp, ?_⟩
            simp [List.nodup_append, hhead.2, hw]
        · exact hrest.2 p hp2
    · simp only [ConnectionManager.connect, if_neg hu]
      have hwf := ih hrest
      constructor
      · rw [List.map_cons, List.nodup_cons]
        constructor
        · rw [connect_keys]
          by_cases hm : uid ∈ rest.map Prod.fst
          · simpa [hm] using hur
          · simp [hm, hur, hu]
        · exact hwf.1
      · intro p hp
        rcases List.mem_cons.mp hp with hp1 | hp2
        · subst hp1
          exact hhead
        · exact hwf.2 p hp2

theorem disconnect_keys_sublist (w : Nat) (s : Reg) :
    List.Sublist ((ConnectionManager.disconnect w s).map Prod.fst)
      (s.map Prod.fst) := by
  induction s with
  | nil => simp [ConnectionManager.disconnect]
  | cons p rest ih =>
    obtain ⟨u, ws⟩ := p
    by_cases hm : w ∈ ws
    · by_cases hz : ws.erase w = []
      · simp only [ConnectionManager.disconnect, if_pos hm, if_pos hz, List.map_cons]
        exact List.sublist_cons_self u (rest.map Prod.fst)
      · simp only [ConnectionManager.disconnect, if_pos hm, if_neg hz, List.map_cons]
        exact List.Sublist.cons₂ u (List.Sublist.refl _)
    · simp only [ConnectionManager.disconnect, if_neg hm, List.map_cons]
      exact List.Sublist.cons₂ u ih

theorem disconnect_WF (w : Nat) (s : Reg) (h : RegWF s) :
    RegWF (ConnectionManager.disconnect w s) := by
  induction s with
  | nil => simpa [ConnectionManager.disconnect] using h
  | cons q rest ih =>
    obtain ⟨u, ws⟩ := q
    have hkr : (rest.map Prod.fst).Nodup := (List.nodup_cons.mp h.1).2
    have hur : u ∉ rest.map Prod.fst := (List.nodup_cons.mp h.1).1
    have hhead := h.2 (u, ws) (by simp)
    have hrest : RegWF rest :=
      ⟨hkr, fun q hq => h.2 q (List.mem_cons_of_mem _ hq)⟩
    by_cases hm : w ∈ ws
    · by_cases hz : ws.erase w = []
      · simpa only [ConnectionManager.disconnect, if_pos hm, if_pos hz] using hrest
      · simp only [ConnectionManager.disconnect, if_pos hm, if_neg hz]
        constructor
        · rw [List.map_cons, List.nodup_cons]
          exact ⟨hur, hkr⟩
        · intro p hp
          rcases List.mem_cons.mp hp with hp1 | hp2
          · subst hp1
            exact ⟨hz, hhead.2.erase w⟩
          · exact hrest.2 p hp2
    · simp only [ConnectionManager.disconnect, if_neg hm]
      have hwf := ih hrest
      constructor
      · rw [List.map_cons, List.nodup_cons]
        exact ⟨fun hc => hur ((disconnect_keys_sublist w rest).mem hc), hwf.1⟩
      · intro p hp
        rcases List.mem_cons.mp hp with hp1 | hp2
        · subst hp1
          exact hhead
        · exact hwf.2 p hp2

theorem foldl_disconnect_WF (l : List Nat) (s : Reg) (h : RegWF s) :
    RegWF (l.foldl (fun st w => ConnectionManager.disconnect w st) s) := by
  induction l generalizing s with
  | nil => simpa using h
  | cons a l ih => exact ih _ (disconnect_WF a s h)

theorem broadcastGo_WF (fail : Nat → Bool) (snap : List (String × List Nat))
    (s : Reg) (h : RegWF s) :
    RegWF (ConnectionManager.broadcastGo fail snap s) := by
  induction snap generalizing s with
  | nil => simpa [ConnectionManager.broadcastGo] using h
  | cons p rest ih =>
    obtain ⟨u, ws⟩ := p
    exact ih _ (foldl_disconnect_WF _ s h)

theorem lookupWs_eq_none (uid : String) (s : Reg)
    (h : uid ∉ s.map Prod.fst) : lookupWs uid s = none := by
  induction s with
  | nil => rfl
  | cons p rest ih =>
    obtain ⟨v, vs⟩ := p
    rw [lookupWs, if_neg ?_]
    · exact ih (fun hc => h (List.mem_cons_of_mem _ hc))
    · intro hv
      exact h (by simp [hv])

theorem send_to_user_state (fail : Nat → Bool) (uid : String) (s : Reg) :
    (ConnectionManager.send_to_user fail uid s).2.1 =
      match lookupWs uid s with
      | none => s
      | some ws =>
        (ws.filter fail).foldl (fun st w => ConnectionManager.disconnect w st) s := by
  unfold ConnectionManager.send_to_user
  cases lookupWs uid s <;> rfl

/-- C4: every registry operation (connect, disconnect, the pruning inside
send_to_user and broadcast) preserves the invariant that a user id is a key
exactly while it has a non-empty, duplicate-free handle set under distinct
keys; and disconnecting the last handle of a user (a handle registered under
no other entry) removes that user id key entirely. -/
theorem ConnectionManager.registry_invariant (fail : Nat → Bool) (op : RegOp)
    (s : Reg) (h : RegWF s) :
    RegWF (applyOp fail op s)
    ∧ (∀ uid w, lookupWs uid s = some [w] →
        (∀ p ∈ s, p.1 ≠ uid → w ∉ p.2) →
        lookupWs uid (ConnectionManager.disconnect w s) = none) := by
  constructor
  · cases op with
    | conn w uid => exact connect_WF w uid s h
    | disc w => exact disconnect_WF w s h
    | send uid =>
      show RegWF (ConnectionManager.send_to_user fail uid s).2.1
      rw [send_to_user_state]
      cases lookupWs uid s with
      | none => exact h
      | some ws => exact foldl_disconnect_WF _ s h
    | bcast => exact broadcastGo_WF fail s s h
  · intro uid w hl hother
    clear fail op
    induction s with
    | nil => simp [lookupWs] at hl
    | cons q rest ih =>
      obtain ⟨u, ws⟩ := q
      have hkr : (rest.map Prod.fst).Nodup := (List.nodup_cons.mp h.1).2
      have hur : u ∉ rest.map Prod.fst := (List.nodup_cons.mp h.1).1
      have hrest : RegWF rest :=
        ⟨hkr, fun q hq => h.2 q (List.mem_cons_of_mem _ hq)⟩
      by_cases hu : u = uid
      · subst hu
        rw [lookupWs, if_pos rfl] at hl
        have hws : ws = [w] := by simpa using hl
        subst hws
        have hd : ConnectionManager.disconnect w ((u, [w]) :: rest) = rest := by
          simp [ConnectionManager.disconnect]
        rw [hd]
        exact lookupWs_eq_none u rest hur
      · rw [lookupWs, if_neg hu] at hl
        have hw : w ∉ ws := hother (u, ws) (by simp) hu
        rw [ConnectionManager.disconnect, if_neg hw, lookupWs, if_neg hu]
        exact ih hrest hl (fun p hp => hother p (List.mem_cons_of_mem _ hp))

/-- C4 witness: a concrete two-user state, exercised with a disconnect that is
also the last-handle case. -/
theorem ConnectionManager.registry_invariant_witness :
    RegWF (applyOp (fun _ => false) (RegOp.disc 1) [("u1", [1]), ("u2", [2, 3])])
    ∧ lookupWs "u1"
        (ConnectionManager.disconnect 1 [("u1", [1]), ("u2", [2, 3])]) = none := by
  have h := ConnectionManager.registry_invariant (fun _ => false) (RegOp.disc 1)
    [("u1", [1]), ("u2", [2, 3])] (by decide)
  exact ⟨h.1, h.2 "u1" 1 (by decide) (by decide)⟩

theorem registered_cons (v : Nat) (u : String) (ws : List Nat) (rest : Reg) :
    registered v ((u, ws) :: rest) ↔ v ∈ ws ∨ registered v rest := by
  simp [registered]

theorem RegWFD.tail (p : String × List Nat) (rest : Reg)
    (h : RegWFD (p :: rest)) : RegWFD rest :=
  ⟨⟨(List.nodup_cons.mp h.1.1).2, fun q hq => h.1.2 q (List.mem_cons_of_mem _ hq)⟩,
   h.2.of_cons⟩

theorem registered_disconnect (w v : Nat) (s : Reg) (h : RegWFD s) :
    registered v (ConnectionManager.disconnect w s) ↔ registered v s ∧ v ≠ w := by
  induction s with
  | nil => simp [ConnectionManager.disconnect, registered]
  | cons q rest ih =>
    obtain ⟨u, ws⟩ := q
    have htail : RegWFD rest := RegWFD.tail _ _ h
    have hdisj : ∀ q ∈ rest, ∀ x ∈ ws, x ∉ q.2 := (List.pairwise_cons.mp h.2).1
    by_cases hw : w ∈ ws
    · have hwrest : ¬ registered w rest := by
        rintro ⟨q, hq, hwq⟩
        exact hdisj q hq w hw hwq
      by_cases hz : ws.erase w = []
      · have hall : ∀ x ∈ ws, x = w := by
          intro x hx
          by_contra hne
          have hmem : x ∈ ws.erase w := (List.mem_erase_of_ne hne).mpr hx
          simp [hz] at hmem
        simp only [ConnectionManager.disconnect]
        rw [if_pos hw, if_pos hz, registered_cons]
        constructor
        · intro hr
          exact ⟨Or.inr hr, fun he => hwrest (he ▸ hr)⟩
        · rintro ⟨hin | hr, hne⟩
          · exact absurd (hall v hin) hne
          · exact hr
      · simp only [ConnectionManager.disconnect]
        rw [if_pos hw, if_neg hz, registered_cons, registered_cons]
        have hnd : ws.Nodup := (h.1.2 (u, ws) (by simp)).2
        rw [hnd.mem_erase_iff]
        constructor
        · rintro (⟨hne, hin⟩ | hr)
          · exact ⟨Or.inl hin, hne⟩
          · exact ⟨Or.inr hr, fun he => hwrest (he ▸ hr)⟩
        · rintro ⟨hin | hr, hne⟩
          · exact Or.inl ⟨hne, hin⟩
          · exact Or.inr hr
    · simp only [ConnectionManager.disconnect]
      rw [if_neg hw, registered_cons, registered_cons, ih htail]
      constructor
      · rintro (hin | ⟨hr, hne⟩)
        · exact ⟨Or.inl hin, fun he => hw (he ▸ hin)⟩
        · exact ⟨Or.inr hr, hne⟩
      · rintro ⟨hin | hr, hne⟩
        · exact Or.inl hin
        · exact Or.inr ⟨hr, hne⟩

theorem disconnect_entries_sub (w : Nat) (s : Reg) :
    ∀ q ∈ ConnectionManager.disconnect w s, ∃ q0 ∈ s, q.2 ⊆ q0.2 := by
  induction s with
  | nil => simp [ConnectionManager.disconnect]
  | cons p rest ih =>
    obtain ⟨u, ws⟩ := p
    by_cases hw : w ∈ ws
    · by_cases hz : ws.erase w = []
      · simp only [ConnectionManager.disconnect, if_pos hw, if_pos hz]
        intro q hq
        exact ⟨q, List.mem_cons_of_mem _ hq, fun x hx => hx⟩
      · simp only [ConnectionManager.disconnect, if_pos hw, if_neg hz]
        intro q hq
        rcases List.mem_cons.mp hq with h1 | h2
        · subst h1
          exact ⟨(u, ws), by simp, fun x hx => List.mem_of_mem_erase hx⟩
        · exact ⟨q, List.mem_cons_of_mem _ h2, fun x hx => hx⟩
    · simp only [ConnectionManager.disconnect, if_neg hw]
      intro q hq
      rcases List.mem_cons.mp hq with h1 | h2
      · subst h1
        exact ⟨(u, ws), by simp, fun x hx => hx⟩
      · obtain ⟨q0, hq0, hsub⟩ := ih q h2
        exact ⟨q0, List.mem_cons_of_mem _ hq0, hsub⟩

theorem disconnect_WFD (w : Nat) (s : Reg) (h : RegWFD s) :
    RegWFD (ConnectionManager.disconnect w s) := by
  refine ⟨disconnect_WF w s h.1, ?_⟩
  induction s with
  | nil => simp [ConnectionManager.disconnect]
  | cons p rest ih =>
    obtain ⟨u, ws⟩ := p
    have htail : RegWFD rest := RegWFD.tail _ _ h
    have hphead : ∀ q ∈ rest, ∀ x ∈ ws, x ∉ q.2 := (List.pairwise_cons.mp h.2).1
    by_cases hw : w ∈ ws
    · by_cases hz : ws.erase w = []
      · simp only [ConnectionManager.disconnect, if_pos hw, if_pos hz]
        exact h.2.of_cons
      · simp only [ConnectionManager.disconnect, if_pos hw, if_neg hz]
        rw [List.pairwise_cons]
        refine ⟨?_, h.2.of_cons⟩
        intro q hq x hx
        exact hphead q hq x (List.mem_of_mem_erase hx)
    · simp only [ConnectionManager.disconnect, if_neg hw]
      rw [List.pairwise_cons]
      refine ⟨?_, ih htail⟩
      intro q hq x hx
      intro hxq
      obtain ⟨q0, hq0, hsub⟩ := disconnect_entries_sub w rest q hq
      exact hphead q0 hq0 x hx (hsub hxq)

theorem registered_foldl_disconnect (l : List Nat) (s : Reg) (h : RegWFD s)
    (v : Nat) :
    registered v (l.foldl (fun st w => ConnectionManager.disconnect w st) s) ↔
      registered v s ∧ v ∉ l := by
  induction l generalizing s with
  | nil => simp
  | cons a l ih =>
    rw [List.foldl_cons, ih _ (disconnect_WFD a s h),
      registered_disconnect a v s h]
    simp only [List.mem_cons, not_or]
    tauto

/-- C5: send_to_user returns false leaving the state untouched when the user
has no registered connections; otherwise it returns true, the message reaches
exactly the handles whose delivery does not fail, and afterwards a handle is
still registered exactly when it was registered before and is not one of the
user's failing handles (so a failing handle is pruned without aborting the
other deliveries and without failing the call). -/
theorem ConnectionManager.send_to_user_spec (fail : Nat → Bool) (uid : String)
    (s : Reg) (h : RegWFD s) :
    (lookupWs uid s = none →
      ConnectionManager.send_to_user fail uid s = ([], s, false))
    ∧ (∀ e, lookupWs uid s = some e →
        (ConnectionManager.send_to_user fail uid s).2.2 = true
        ∧ (ConnectionManager.send_to_user fail uid s).1 =
            e.filter (fun w => ! fail w)
        ∧ ∀ v, registered v (ConnectionManager.send_to_user fail uid s).2.1 ↔
            (registered v s ∧ ¬ (v ∈ e ∧ fail v = true))) := by
  constructor
  · intro hl
    unfold ConnectionManager.send_to_user
    rw [hl]
  · intro e hl
    have hse : ConnectionManager.send_to_user fail uid s =
        (e.filter (fun w => ! fail w),
         (e.filter fail).foldl (fun st w => ConnectionManager.disconnect w st) s,
         true) := by
      unfold ConnectionManager.send_to_user
      rw [hl]
    rw [hse]
    refine ⟨rfl, rfl, ?_⟩
    intro v
    rw [registered_foldl_disconnect _ s h v]
    simp [List.mem_filter]

/-- C5 witness: the spec scenario with h1 and h2 both registered for u1 and
delivery failing on h1: the message still reaches h2, the call returns true,
and afterward h1 is no longer registered while h2 still is. -/
theorem ConnectionManager.send_to_user_spec_witness :
    (ConnectionManager.send_to_user (fun w => decide (w = 1)) "u1"
      (ConnectionManager.connect 2 "u1"
        (ConnectionManager.connect 1 "u1" []))).2.2 = true
    ∧ (ConnectionManager.send_to_user (fun w => decide (w = 1)) "u1"
        (ConnectionManager.connect 2 "u1"
          (ConnectionManager.connect 1 "u1" []))).1 = [2]
    ∧ ¬ registered 1 (ConnectionManager.send_to_user (fun w => decide (w = 1))
        "u1" (ConnectionManager.connect 2 "u1"
          (ConnectionManager.connect 1 "u1" []))).2.1
    ∧ registered 2 (ConnectionManager.send_to_user (fun w => decide (w = 1))
        "u1" (ConnectionManager.connect 2 "u1"
          (ConnectionManager.connect 1 "u1" []))).2.1 := by
  have h := (ConnectionManager.send_to_user_spec (fun w => decide (w = 1)) "u1"
      (ConnectionManager.connect 2 "u1" (ConnectionManager.connect 1 "u1" []))
      (by decide)).2 [1, 2] (by decide)
  refine ⟨h.1, ?_, ?_, ?_⟩
  · rw [h.2.1]
    decide
  · intro hr
    exact absurd ((h.2.2 1).mp hr) (by decide)
  · exact (h.2.2 2).mpr (by decide)

/-! Session transport policy: CookieService (security.py lines 131-220) and
the ALLOW_ORIGINS configuration (src/app/core/setting.py). -/

/-- c is d followed by more characters. -/
def startsWithChars : List Char → List Char → Bool
  | [], _ => true
  | _ :: _, [] => false
  | a :: as, b :: bs => decide (a = b) && startsWithChars as bs

/-- Occurs-somewhere test on character lists. -/
def hasSubChars (n : List Char) : List Char → Bool
  | [] => n.isEmpty
  | b :: bs => startsWithChars n (b :: bs) || hasSubChars n bs

/-- The Python expression needle in hay for two strings: substring test. -/
def pyStrIn (needle hay : String) : Bool :=
  hasSubChars needle.toList hay.toList

/-- ALLOW_ORIGINS as held by Settings (setting.py line 10): the annotation is
Union of str and List of str.  The mode-before validator splits a provided
string into a list; the default stays whatever it was declared as. -/
inductive AllowOrigins where
  | raw (s : String)
  | listed (l : List String)
  deriving DecidableEq, Repr

/-- Settings.split_origins (setting.py lines 33-38): a string value is split
on commas and stripped; anything else is returned unchanged. -/
def split_origins (v : AllowOrigins) : AllowOrigins :=
  match v with
  | .raw s => .listed ((s.splitOn ",").map (fun i => i.trim))
  | .listed l => .listed l

/-- The ALLOW_ORIGINS value Settings ends up holding: a value provided by the
environment passes through the mode-before validator split_origins and
becomes a list; when nothing is provided the declared default "*" is used,
and pydantic does not validate defaults, so it stays a raw string. -/
def settingsAllowOrigins (envValue : Option String) : AllowOrigins :=
  match envValue with
  | some s => split_origins (.raw s)
  | none => .raw "*"

/-- The Python expression x in settings.ALLOW_ORIGINS: substring test when the
value is still a string, membership when the validator made it a list. -/
def AllowOrigins.pyIn (x : String) : AllowOrigins → Bool
  | .raw s => pyStrIn x s
  | .listed l => decide (x ∈ l)

/-- The expression settings.ALLOW_ORIGINS.split(",")[0] used as the fallback
in get_origin_from_request (security.py line 179): a string has split, a list
does not, so the attribute access on a validated (list) value raises
AttributeError. -/
def allowOriginsSplitHead : AllowOrigins → Except PyExc String
  | .raw s => .ok ((s.splitOn ",").headD "")
  | .listed _ => .error .attributeError

/-- The parts of urlparse(referer) that get_origin_from_request reads. -/
structure RefererUrl where
  scheme : String
  hostname : String
  port : Option Nat
  deriving DecidableEq, Repr

/-- The scheme://hostname[:port] string rebuilt at security.py lines 174-176. -/
def formatRefererOrigin (r : RefererUrl) : String :=
  let base := r.scheme ++ "://" ++ r.hostname
  match r.port with
  | some p => base ++ ":" ++ toString p
  | none => base

/-- The parts of a FastAPI Request the embedded code reads: the origin and
referer headers and the cookie dict. -/
structure RequestV where
  origin_header : Option String
  referer_header : Option RefererUrl
  cookies : List (String × TokenStr)

/-- dict.get(name, None) on the request cookie dict. -/
def pyDictGet (name : String) : List (String × TokenStr) → Option TokenStr
  | [] => none
  | (k, v) :: rest => if k = name then some v else pyDictGet name rest

/-- CookieService.get_token_from_cookie (security.py lines 143-155). -/
def CookieService.get_token_from_cookie (cookie_name : String)
    (req : RequestV) : Option TokenStr :=
  pyDictGet cookie_name req.cookies

/-- The referer-then-fallback tail of get_origin_from_request (security.py
lines 171-180), reached when the origin header is absent or empty. -/
def getOriginFallback (req : RequestV) (allow : AllowOrigins) :
    Except PyExc String :=
  match req.referer_header with
  | some r => .ok (formatRefererOrigin r)
  | none => allowOriginsSplitHead allow

/-- CookieService.get_origin_from_request (security.py lines 157-180): a
truthy origin header wins; otherwise the referer is parsed; otherwise the
first entry of settings.ALLOW_ORIGINS.split(",") is the fallback. -/
def CookieService.get_origin_from_request (req : RequestV)
    (allow : AllowOrigins) : Except PyExc String :=
  match req.origin_header with
  | some o => if o = "" then getOriginFallback req allow else .ok o
  | none => getOriginFallback req allow

/-- CookieService.is_allowed_origin (security.py lines 182-194): the origin is
in the allowed origins, or a wildcard entry is. -/
def CookieService.is_allowed_origin (origin : String)
    (allowed_origins : AllowOrigins) : Bool :=
  AllowOrigins.pyIn origin allowed_origins ||
    AllowOrigins.pyIn "*" allowed_origins

/-- One Set-Cookie produced by response.set_cookie. -/
structure CookieV where
  key : String
  value : TokenStr
  httponly : Bool
  secure : Bool
  samesite : String
  expires : Int
  deriving DecidableEq, Repr

/-- The response mutations the embedded code performs. -/
structure ResponseV where
  set_cookies : List CookieV
  deleted_cookies : List String
  deriving DecidableEq, Repr

/-- CookieService.clear_cookie (security.py lines 138-141): unconditionally
delete both session cookies. -/
def CookieService.clear_cookie (resp : ResponseV) : ResponseV :=
  { resp with deleted_cookies :=
      resp.deleted_cookies ++ ["access_token", "refresh_token"] }

/-- CookieService.set_cookie (security.py lines 196-220): when
is_allowed_origin accepts the request origin against settings.ALLOW_ORIGINS,
set an HttpOnly, Secure, SameSite none cookie expiring at now + max_age;
otherwise raise error_exception_handler(AppStatus.FORBIDDEN). -/
def CookieService.set_cookie (resp : ResponseV) (key : String)
    (value : TokenStr) (request_origin : String) (max_age : Int)
    (allowed : AllowOrigins) (now : Int) : Except PyExc ResponseV :=
  if CookieService.is_allowed_origin request_origin allowed then
    .ok { resp with set_cookies := resp.set_cookies ++
      [{ key := key, value := value, httponly := true, secure := true,
         samesite := "none", expires := now + max_age }] }
  else .error (.httpException (error_exception_handler AppStatusT.forbidden))

/-- C6: against a list-valued allow-list, set_cookie raises the forbidden
outcome (attaching nothing) exactly when the origin is neither a member of
the list nor covered by a wildcard entry of it; when the origin is allowed,
the one cookie set is HttpOnly, Secure, SameSite none with absolute expiry
now + max_age. -/
theorem CookieService.set_cookie_origin_policy (resp : ResponseV)
    (key : String) (value : TokenStr) (origin : String) (l : List String)
    (max_age now : Int) :
    (CookieService.set_cookie resp key value origin max_age (.listed l) now =
        .error (.httpException (error_exception_handler AppStatusT.forbidden))
      ↔ ¬ (origin ∈ l ∨ "*" ∈ l))
    ∧ ((origin ∈ l ∨ "*" ∈ l) →
      CookieService.set_cookie resp key value origin max_age (.listed l) now =
        .ok { resp with set_cookies := resp.set_cookies ++
          [{ key := key, value := value, httponly := true, secure := true,
             samesite := "none", expires := now + max_age }] }) := by
  have hiff : CookieService.is_allowed_origin origin (.listed l) = true ↔
      (origin ∈ l ∨ "*" ∈ l) := by
    simp [CookieService.is_allowed_origin, AllowOrigins.pyIn]
  constructor
  · constructor
    · intro heq hmem
      rw [CookieService.set_cookie, if_pos (hiff.mpr hmem)] at heq
      exact absurd heq (by simp)
    · intro hmem
      rw [CookieService.set_cookie,
        if_neg (fun hc => hmem (hiff.mp hc))]
  · intro hmem
    rw [CookieService.set_cookie, if_pos (hiff.mpr hmem)]

/-- C6 witness: origin https evil.test is rejected against the allow-list
containing only https app.test, and accepted against the wildcard list. -/
theorem CookieService.set_cookie_origin_policy_witness :
    CookieService.set_cookie ⟨[], []⟩ "access_token" (.malformed "v")
        "https://evil.test" 3600 (.listed ["https://app.test"]) 0 =
      .error (.httpException (error_exception_handler AppStatusT.forbidden))
    ∧ CookieService.set_cookie ⟨[], []⟩ "access_token" (.malformed "v")
        "https://evil.test" 3600 (.listed ["*"]) 0 =
      .ok ⟨[{ key := "access_token", value := .malformed "v", httponly := true,
              secure := true, samesite := "none", expires := 3600 }], []⟩ := by
  constructor
  · exact (CookieService.set_cookie_origin_policy ⟨[], []⟩ "access_token"
      (.malformed "v") "https://evil.test" ["https://app.test"] 3600 0).1.mpr
      (by decide)
  · exact (CookieService.set_cookie_origin_policy ⟨[], []⟩ "access_token"
      (.malformed "v") "https://evil.test" ["*"] 3600 0).2 (by decide)

/-- C7: on a request with neither an origin nor a referer header, when
ALLOW_ORIGINS was provided through the environment (so split_origins has
turned it into a list), the fallback settings.ALLOW_ORIGINS.split(",")[0]
raises AttributeError instead of returning the first allow-list entry. -/
theorem CookieService.get_origin_fallback_raises (req : RequestV) (s : String)
    (hO : req.origin_header = none) (hR : req.referer_header = none) :
    CookieService.get_origin_from_request req (settingsAllowOrigins (some s)) =
      .error .attributeError := by
  rw [CookieService.get_origin_from_request]
  rw [hO]
  rw [getOriginFallback, hR]
  rfl

/-- C7 witness: the concrete headerless request with the environment-provided
allow-list https app.test. -/
theorem CookieService.get_origin_fallback_raises_witness :
    CookieService.get_origin_from_request ⟨none, none, []⟩
      (settingsAllowOrigins (some "https://app.test")) =
      .error .attributeError :=
  CookieService.get_origin_fallback_raises ⟨none, none, []⟩ "https://app.test"
    rfl rfl

/-! AuthMiddleware (src/app/middlewares/auth_middleware.py). -/

/-- Modelled from the spec: TokenService.generate_refresh_tokens, the local
rotate operation, is only called (auth_middleware.py line 43) and has no
definition under src/.  Per the spec, rotate validates the refresh token and,
when it is valid, mints a fresh access+refresh pair for the token's subject
with newly generated token ids; it returns None when the refresh token is
invalid or expired. -/
def TokenService.generate_refresh_tokens (svc : TokenService)
    (refresh : Option TokenStr) (now : Int) (userOf : String → User)
    (jtiA jtiR : String) : Option TokenPair :=
  match svc.validate_token refresh now with
  | .ok (some claims) => some (svc.generate_token_pair (userOf claims.sub) now jtiA jtiR)
  | _ => none

/-- Settings (setting.py lines 7-31) defines REFRESH_TOKEN_EXPIRES_IN_DAYS and
no REFRESH_TOKEN_EXPIRES_IN_MINUTES, so the attribute access
settings.REFRESH_TOKEN_EXPIRES_IN_MINUTES written at auth_middleware.py line
55 raises AttributeError. -/
def settingsRefreshTokenExpiresInMinutes : Except PyExc Int :=
  .error .attributeError

/-- The ambient inputs of one get_current_user call: the token service and
settings values, the request, the repository (find_user_by_id, which may
raise), whether UUID(sub) parses, the subject-to-user resolution the modelled
rotation mints for, and the fresh jtis it draws. -/
structure AuthEnv where
  svc : TokenService
  request : RequestV
  allow : AllowOrigins
  now : Int
  userOf : String → User
  repo : String → Except PyExc (Option User)
  uuid_ok : String → Bool
  jti1 : String
  jti2 : String
  access_minutes : Int

/-- AuthMiddleware.handle_refresh_token_valid (auth_middleware.py lines
37-57): missing refresh cookie raises through the headers call; a failed
rotation clears both cookies and raises through the headers call; otherwise
the new access token is validated, the origin resolved, the user loaded, and
both cookies re-attached (the refresh cookie max-age reads the undefined
settings attribute).  The response mutations performed before an exception
stay on the response. -/
def AuthMiddleware.handle_refresh_token_valid (env : AuthEnv)
    (resp : ResponseV) : ResponseV × Except PyExc (Option User) :=
  match CookieService.get_token_from_cookie "refresh_token" env.request with
  | none => (resp, .error raiseUnauthorizedWithHeaders)
  | some refresh_token =>
    match TokenService.generate_refresh_tokens env.svc (some refresh_token)
        env.now env.userOf env.jti1 env.jti2 with
    | none =>
      (CookieService.clear_cookie resp, .error raiseUnauthorizedWithHeaders)
    | some tokens =>
      match env.svc.validate_token (some tokens.access_token) env.now with
      | .error e => (resp, .error (.jwtExc e))
      | .ok none => (resp, .error raiseUnauthorizedWithHeaders)
      | .ok (some claims) =>
        match CookieService.get_origin_from_request env.request env.allow with
        | .error e => (resp, .error e)
        | .ok origin =>
          if env.uuid_ok claims.sub then
            match env.repo claims.sub with
            | .error e => (resp, .error e)
            | .ok user =>
              match CookieService.set_cookie resp "access_token"
                  tokens.access_token origin (60 * env.access_minutes)
                  env.allow env.now with
              | .error e => (resp, .error e)
              | .ok resp2 =>
                match settingsRefreshTokenExpiresInMinutes with
                | .error e => (resp2, .error e)
                | .ok m =>
                  match CookieService.set_cookie resp2 "refresh_token"
                      tokens.refresh_token origin (60 * m) env.allow env.now with
                  | .error e => (resp2, .error e)
                  | .ok resp3 => (resp3, .ok user)
          else (resp, .error .valueError)

/-- The try block of AuthMiddleware.get_current_user (auth_middleware.py
lines 25-32). -/
def AuthMiddleware.get_current_user_body (env : AuthEnv) (resp : ResponseV) :
    ResponseV × Except PyExc (Option User) :=
  match env.svc.validate_token
      (CookieService.get_token_from_cookie "access_token" env.request)
      env.now with
  | .error e => (resp, .error (.jwtExc e))
  | .ok none => AuthMiddleware.handle_refresh_token_valid env resp
  | .ok (some claims) =>
    if env.uuid_ok claims.sub then
      match env.repo claims.sub with
      | .error e => (resp, .error e)
      | .ok user => (resp, .ok user)
    else (resp, .error .valueError)

/-- AuthMiddleware.get_current_user (auth_middleware.py lines 21-35): any
exception of the try block is caught and the handler re-raises through
error_exception_handler(AppStatus.UNAUTHORIZED, headers=response.headers). -/
def AuthMiddleware.get_current_user (env : AuthEnv) (resp : ResponseV) :
    ResponseV × Except PyExc (Option User) :=
  match AuthMiddleware.get_current_user_body env resp with
  | (r, .ok user) => (r, .ok user)
  | (r, .error _) => (r, .error raiseUnauthorizedWithHeaders)

/-- C3: on a present but invalid or expired refresh token the modelled
rotation returns None (so no partial pair can be returned), and
handle_refresh_token_valid clears both session cookies; but the exception it
then raises is the TypeError from passing headers= to error_exception_handler,
not the Unauthorized HTTPException. -/
theorem AuthMiddleware.rotation_failure (env : AuthEnv) (resp : ResponseV)
    (tok : TokenStr)
    (hget : CookieService.get_token_from_cookie "refresh_token" env.request =
      some tok)
    (hinv : env.svc.validate_token (some tok) env.now = .ok none) :
    TokenService.generate_refresh_tokens env.svc (some tok) env.now env.userOf
        env.jti1 env.jti2 = none
    ∧ AuthMiddleware.handle_refresh_token_valid env resp =
        (CookieService.clear_cookie resp, .error PyExc.typeError) := by
  have hro : TokenService.generate_refresh_tokens env.svc (some tok) env.now
      env.userOf env.jti1 env.jti2 = none := by
    unfold TokenService.generate_refresh_tokens
    rw [hinv]
  refine ⟨hro, ?_⟩
  simp only [AuthMiddleware.handle_refresh_token_valid, hget, hro]
  rfl

/-- C3 witness: a concrete environment whose refresh cookie holds an expired
token signed with the configured secret. -/
theorem AuthMiddleware.rotation_failure_witness :
    AuthMiddleware.handle_refresh_token_valid
      { svc := { secret_key := "k", algorithm := "HS256",
                 access_token_expires_in_minutes := 1,
                 refresh_token_expires_in_days := 7 },
        request := { origin_header := none, referer_header := none,
                     cookies := [("refresh_token", TokenStr.signed
                       { sub := "u-42", username := none, email := none,
                         role := none, iat := 0, jti := "j", exp := 50 }
                       "k" "HS256")] },
        allow := .listed ["*"], now := 100,
        userOf := fun _ => { id := "u-42", username := "alice", email := "a@x",
                             role := "user", is_active := true },
        repo := fun _ => .ok none, uuid_ok := fun _ => true,
        jti1 := "j1", jti2 := "j2", access_minutes := 1 } ⟨[], []⟩ =
      (CookieService.clear_cookie ⟨[], []⟩, .error PyExc.typeError) :=
  (AuthMiddleware.rotation_failure
    { svc := { secret_key := "k", algorithm := "HS256",
               access_token_expires_in_minutes := 1,
               refresh_token_expires_in_days := 7 },
      request := { origin_header := none, referer_header := none,
                   cookies := [("refresh_token", TokenStr.signed
                     { sub := "u-42", username := none, email := none,
                       role := none, iat := 0, jti := "j", exp := 50 }
                     "k" "HS256")] },
      allow := .listed ["*"], now := 100,
      userOf := fun _ => { id := "u-42", username := "alice", email := "a@x",
                           role := "user", is_active := true },
      repo := fun _ => .ok none, uuid_ok := fun _ => true,
      jti1 := "j1", jti2 := "j2", access_minutes := 1 } ⟨[], []⟩
    (TokenStr.signed
      { sub := "u-42", username := none, email := none, role := none,
        iat := 0, jti := "j", exp := 50 } "k" "HS256")
    (by decide) (by decide)).2

/-- C9: whenever get_current_user fails, whatever the underlying cause and
environment, the exception that escapes is always the same TypeError from the
headers call, so no two failures are distinguishable; in particular the
outcome is not the Unauthorized HTTPException the handler meant to raise. -/
theorem AuthMiddleware.get_current_user_failure_uniform
    (env1 env2 : AuthEnv) (r1 r2 : ResponseV) (e1 e2 : PyExc)
    (h1 : (AuthMiddleware.get_current_user env1 r1).2 = .error e1)
    (h2 : (AuthMiddleware.get_current_user env2 r2).2 = .error e2) :
    e1 = e2 ∧ e1 = PyExc.typeError := by
  have hraise : raiseUnauthorizedWithHeaders = PyExc.typeError := rfl
  have key : ∀ (env : AuthEnv) (r : ResponseV) (e : PyExc),
      (AuthMiddleware.get_current_user env r).2 = .error e →
        e = PyExc.typeError := by
    intro env r e he
    unfold AuthMiddleware.get_current_user at he
    rcases hb : AuthMiddleware.get_current_user_body env r with ⟨rb, xb⟩
    rw [hb] at he
    cases xb with
    | ok u => simp at he
    | error e0 =>
      simp only [] at he
      have hee : raiseUnauthorizedWithHeaders = e := by
        exact (Except.error.injEq _ _).mp he
      exact hee.symm.trans hraise
  exact ⟨(key env1 r1 e1 h1).trans (key env2 r2 e2 h2).symm, key env1 r1 e1 h1⟩

/-- The environment of a request carrying no cookies at all. -/
def envNoCookies : AuthEnv :=
  { svc := { secret_key := "k", algorithm := "HS256",
             access_token_expires_in_minutes := 1,
             refresh_token_expires_in_days := 7 },
    request := { origin_header := none, referer_header := none, cookies := [] },
    allow := .listed ["*"], now := 100,
    userOf := fun _ => { id := "u-42", username := "alice", email := "a@x",
                         role := "user", is_active := true },
    repo := fun _ => .ok none, uuid_ok := fun _ => true,
    jti1 := "j1", jti2 := "j2", access_minutes := 1 }

/-- The environment of a request with a valid access token whose user load
fails in the repository. -/
def envRepoError : AuthEnv :=
  { svc := { secret_key := "k", algorithm := "HS256",
             access_token_expires_in_minutes := 1,
             refresh_token_expires_in_days := 7 },
    request := { origin_header := none, referer_header := none,
                 cookies := [("access_token", TokenStr.signed
                   { sub := "u-42", username := some "alice",
                     email := some "a@x", role := some "user",
                     iat := 0, jti := "j", exp := 2000 } "k" "HS256")] },
    allow := .listed ["*"], now := 100,
    userOf := fun _ => { id := "u-42", username := "alice", email := "a@x",
                         role := "user", is_active := true },
    repo := fun _ => .error .repoFailure, uuid_ok := fun _ => true,
    jti1 := "j1", jti2 := "j2", access_minutes := 1 }

/-- C9 witness: a request missing its access cookie and a request whose
repository lookup fails produce the same visible exception. -/
theorem AuthMiddleware.get_current_user_failure_uniform_witness :
    (AuthMiddleware.get_current_user envNoCookies ⟨[], []⟩).2 =
      .error PyExc.typeError
    ∧ (AuthMiddleware.get_current_user envRepoError ⟨[], []⟩).2 =
      .error PyExc.typeError
    ∧ PyExc.typeError = PyExc.typeError := by
  have h1 : (AuthMiddleware.get_current_user envNoCookies ⟨[], []⟩).2 =
      .error PyExc.typeError := by decide
  have h2 : (AuthMiddleware.get_current_user envRepoError ⟨[], []⟩).2 =
      .error PyExc.typeError := by decide
  exact ⟨h1, h2,
    (AuthMiddleware.get_current_user_failure_uniform envNoCookies envRepoError
      ⟨[], []⟩ ⟨[], []⟩ PyExc.typeError PyExc.typeError h1 h2).1 ▸ rfl⟩
